import Mathlib

/-!
Verification development for the YouTube transcript extraction pipeline
(`extract_transcripts.py`).  The Python functions are shallowly embedded as
Lean functions: pure string manipulation is translated directly, the
stateful parts (files written during a run, the sticky "always use whisper"
flag, pending operator answers) are modelled by explicit state passing, and
the external collaborators (YouTube Data API, transcript provider, whisper,
the translator) are parameters of the embedded functions.
-/

namespace ExtractTranscripts

/-- Python `str.strip()` whitespace test, restricted to the ASCII whitespace
characters (space, tab, newline, carriage return, vertical tab, form feed).
The pipeline only ever strips these. -/
def pySpace (c : Char) : Bool :=
  c = ' ' || c = '\t' || c = '\n' || c = '\r' || c = '\x0B' || c = '\x0C'

/-- Python `str.strip()`: drop `pySpace` characters from both ends of the
character list. -/
def pyStrip (l : List Char) : List Char :=
  List.reverse (List.dropWhile pySpace (List.reverse (List.dropWhile pySpace l)))

/-- The characters matched by the regex class in `sanitize_filename`,
namely `<>:"/\|?*`. -/
def badChars : List Char := ['<', '>', ':', '"', '/', '\\', '|', '?', '*']

/-- `sanitize_filename(title)` from the source:
`re.sub(r'[<>:"/\\|?*]', '', title).strip()` — every character of the class
is removed, then surrounding whitespace is stripped. -/
def sanitize_filename (title : String) : String :=
  String.mk (pyStrip (title.data.filter (fun c => !(badChars.contains c))))

/-- Python `str.split(sep)` for a one-character separator: splits into
fields, keeping empty fields (`"a&&b"` gives `["a", "", "b"]`, `""` gives
`[""]`). -/
def splitOnChar (sep : Char) : List Char → List (List Char)
  | [] => [[]]
  | c :: rest =>
    let r := splitOnChar sep rest
    if c = sep then [] :: r
    else
      match r with
      | [] => [[c]]
      | g :: gs => (c :: g) :: gs

/-- Characters after the first occurrence of `sep`, or `[]` when `sep` is
absent. -/
def afterChar (sep : Char) : List Char → List Char
  | [] => []
  | c :: rest => if c = sep then rest else afterChar sep rest

/-- Characters before the first occurrence of `sep`. -/
def beforeChar (sep : Char) : List Char → List Char
  | [] => []
  | c :: rest => if c = sep then [] else c :: beforeChar sep rest

/-- Query component of a URL as computed by `urllib.parse.urlparse`: the
part after the first `?`, with the fragment (everything from the first `#`)
cut off beforehand. -/
def urlQuery (url : String) : List Char :=
  afterChar '?' (beforeChar '#' url.data)

/-- Splits a query field at its first `=`; `none` when the field has no
`=`. -/
def splitEq : List Char → Option (List Char × List Char)
  | [] => none
  | c :: rest =>
    if c = '=' then some ([], rest)
    else
      match splitEq rest with
      | none => none
      | some (k, v) => some (c :: k, v)

/-- Python `urllib.parse.parse_qsl` replaces `+` by a space in names and
values. -/
def plusToSpace (l : List Char) : List Char :=
  l.map (fun c => if c = '+' then ' ' else c)

/-- Python `urllib.parse.parse_qs` with its default arguments, as the
ordered list of (name, value) pairs: fields are split on `&`; empty fields,
fields without `=` and fields with an empty value are dropped; `+` becomes
a space.  Percent-decoding is not modelled (no claim depends on it). -/
def parse_qsl (qs : List Char) : List (String × String) :=
  (splitOnChar '&' qs).filterMap (fun field =>
    match splitEq field with
    | none => none
    | some (k, v) =>
      if v = [] then none
      else some (String.mk (plusToSpace k), String.mk (plusToSpace v)))

/-- First value listed for key `k` in the parsed query dictionary, i.e.
`parse_qs(qs)[k][0]` when the key is present, `none` otherwise. -/
def qsLookup (qp : List (String × String)) (k : String) : Option String :=
  match qp.find? (fun p => p.1 == k) with
  | none => none
  | some p => some p.2

/-- Snippet of one playlistItems element: exactly the fields the loop body
of `fetch_video_ids` reads. -/
structure Snippet where
  videoId : String
  title : String
  videoOwnerChannelTitle : Option String
  channelTitle : Option String
deriving DecidableEq

/-- Response to one playlistItems request, as consumed by the code: HTTP
status, raw body text (quoted in the error message), the page's items and
the optional continuation token. -/
structure ApiResponse where
  status_code : Nat
  text : String
  items : List Snippet
  nextPageToken : Option String

/-- One (video id, title, channel name) tuple accumulated by
`fetch_video_ids`. -/
abbrev VideoEntry := String × String × String

/-- Loop body extraction, with the channel-name fallback
`snippet.get("videoOwnerChannelTitle", snippet.get("channelTitle", "Unknown"))`. -/
def entryOfSnippet (s : Snippet) : VideoEntry :=
  (s.videoId, s.title, s.videoOwnerChannelTitle.getD (s.channelTitle.getD "Unknown"))

/-- The `while next_page_token is not None` loop of `fetch_video_ids`.
`provider` models the playlistItems endpoint for the fixed playlist id and
page size 50, as a function of the page token; `fuel` bounds the number of
iterations so the function is total — `none` means the fuel ran out before
the loop finished.  A non-200 status raises
`Exception("Failed to fetch playlist videos: ...")`, modelled by
`Except.error`. -/
def fetchLoop (provider : String → ApiResponse) :
    Nat → String → Option (Except String (List VideoEntry))
  | 0, _ => none
  | fuel + 1, token =>
    let resp := provider token
    if resp.status_code ≠ 200 then
      some (Except.error ("Failed to fetch playlist videos: " ++ resp.text))
    else
      let entries := resp.items.map entryOfSnippet
      match resp.nextPageToken with
      | none => some (Except.ok entries)
      | some t =>
        match fetchLoop provider fuel t with
        | none => none
        | some (Except.error e) => some (Except.error e)
        | some (Except.ok rest) => some (Except.ok (entries ++ rest))

/-- `fetch_video_ids(playlist_url)`: extracts the playlist id from the
`list` query parameter — raising `ValueError("Invalid playlist URL")` when
it is absent — then runs the pagination loop from the empty page token. -/
def fetch_video_ids (provider : String → ApiResponse) (fuel : Nat)
    (playlist_url : String) : Option (Except String (List VideoEntry)) :=
  match qsLookup (parse_qsl (urlQuery playlist_url)) "list" with
  | none => some (Except.error "Invalid playlist URL")
  | some _ => fetchLoop provider fuel ""

/-- Page token used by the canonical paginated provider below: page `i` is
requested with a token of `i` characters (page 0 with the empty token, as
in the code's first request). -/
def tok (i : Nat) : String := String.mk (List.replicate i 'a')

/-- Canonical well-behaved provider whose listing is split into the given
pages: requesting the token of page `i` answers with status 200, page `i`'s
items, and a continuation token exactly when page `i + 1` exists. -/
def pagedProvider (pages : List (List Snippet)) (token : String) : ApiResponse :=
  if h : token.length < pages.length then
    { status_code := 200, text := "",
      items := pages.get ⟨token.length, h⟩,
      nextPageToken :=
        if token.length + 1 < pages.length then some (tok (token.length + 1))
        else none }
  else
    { status_code := 404, text := "page not found", items := [],
      nextPageToken := none }

/-- Failure modes of `YouTubeTranscriptApi.get_transcript`, one per
except-clause of `fetch_transcript`; `other` stands for any exception not
matched by the three specific handlers (it is caught by the final generic
handler). -/
inductive TranscriptApiError
  | transcriptsDisabled
  | noTranscriptFound
  | couldNotRetrieveTranscript
  | other (msg : String)
deriving DecidableEq

/-- One timed transcript segment; the code only reads its `text` field. -/
structure TranscriptSegment where
  text : String
deriving DecidableEq

/-- Observable outcome of `fetch_transcript`: either the provider
transcript text is returned, or control falls through to
`generate_transcript_placeholder` (the Fallback Transcriber). -/
inductive FetchOutcome
  | fetched (text : String)
  | fallbackInvoked
deriving DecidableEq

/-- `fetch_transcript(video_id, title)`: asks the transcript API with the
language preference list `['pt', 'en']`; an empty transcript list raises
`ValueError("Transcript data is empty")`, caught by the final generic
handler; every handled failure prints a warning and falls through to the
placeholder (the Fallback Transcriber). -/
def fetch_transcript
    (api : List String → Except TranscriptApiError (List TranscriptSegment)) :
    FetchOutcome :=
  match api ["pt", "en"] with
  | Except.ok transcript =>
    if transcript = [] then FetchOutcome.fallbackInvoked
    else FetchOutcome.fetched
      (String.intercalate "\n" (transcript.map TranscriptSegment.text))
  | Except.error TranscriptApiError.transcriptsDisabled => FetchOutcome.fallbackInvoked
  | Except.error TranscriptApiError.noTranscriptFound => FetchOutcome.fallbackInvoked
  | Except.error TranscriptApiError.couldNotRetrieveTranscript => FetchOutcome.fallbackInvoked
  | Except.error (TranscriptApiError.other _) => FetchOutcome.fallbackInvoked

/-- Python `.strip().lower()` applied to an operator answer (ASCII lower
case, which covers every answer the prompt compares against). -/
def normalizeAnswer (s : String) : String :=
  String.mk ((pyStrip s.data).map Char.toLower)

/-- Result of one run of `generate_transcript_placeholder`'s decision
logic: whether the whisper path is taken, the new value of the sticky
`always_use_whisper` flag, and the operator answers not yet consumed. -/
structure PlaceholderStep where
  runWhisper : Bool
  always_use_whisper : Bool
  pendingAnswers : List String
deriving DecidableEq

/-- Decision logic of `generate_transcript_placeholder`.  The code always
prints the yes/no/yes-to-all question and calls `input()`, so one pending
operator answer is consumed on every call, sticky flag or not; an empty
answer stream models `EOFError`, for which the code substitutes `'y'`.
Answer `'a'` sets the sticky flag and is then treated as `'y'`; the whisper
path is taken when the stripped, lowered answer is one of `''`, `'y'`,
`'yes'`, `'sim'`, or when the sticky flag is set. -/
def generate_transcript_placeholder_step (always_use_whisper : Bool)
    (answers : List String) : PlaceholderStep :=
  let consumed : String × List String :=
    match answers with
    | [] => ("y", [])
    | a :: rest => (normalizeAnswer a, rest)
  let afterAll : Bool × String :=
    if consumed.1 = "a" then (true, "y") else (always_use_whisper, consumed.1)
  if afterAll.2 = "" ∨ afterAll.2 = "y" ∨ afterAll.2 = "yes" ∨ afterAll.2 = "sim" ∨
      afterAll.1 = true then
    { runWhisper := true, always_use_whisper := afterAll.1,
      pendingAnswers := consumed.2 }
  else
    { runWhisper := false, always_use_whisper := afterAll.1,
      pendingAnswers := consumed.2 }

/-- Result of `generate_transcript_with_whisper`, paired with the files
present in the working directory afterwards.  `globMatches` is the glob result
for the sanitized-title pattern after the downloader ran, `transcribe`
models `whisper.transcribe` (`Except.error` = the call raises), and `files`
is the working-directory content.  The code removes the downloaded file
only after `model.transcribe` returns: an empty glob raises
`FileNotFoundError`, and a transcription failure propagates — in both
cases every file stays in place. -/
def generate_transcript_with_whisper (title : String) (globMatches : List String)
    (transcribe : String → Except String String) (files : List String) :
    Except String String × List String :=
  match globMatches with
  | [] => (Except.error ("Downloaded file for " ++ title ++ " not found."), files)
  | downloaded_file :: _ =>
    match transcribe downloaded_file with
    | Except.error e => (Except.error e, files)
    | Except.ok text => (Except.ok text, files.erase downloaded_file)

/-- Files written during one run: the combined document's content, the
individual-transcripts directory (filename ↦ content) and the append-only
skip log. -/
structure RunState where
  combined : String
  individual : List (String × String)
  skipLog : String
deriving DecidableEq

/-- Writing a file into a directory: overwrites the entry with the same
name, otherwise adds the file. -/
def writeFile : List (String × String) → String → String → List (String × String)
  | [], name, content => [(name, content)]
  | (n, c) :: rest, name, content =>
    if n == name then (n, content) :: rest
    else (n, c) :: writeFile rest name content

/-- Content of the named file, when present. -/
def readFile (fs : List (String × String)) (name : String) : Option String :=
  match fs.find? (fun p => p.1 == name) with
  | none => none
  | some p => some p.2

/-- `log_skipped(url, reason)`: appends one `"{url} - {reason}"` line to
the skip log.  The pipeline defines this helper but never calls it — see
C8. -/
def log_skipped (log url reason : String) : String :=
  log ++ url ++ " - " ++ reason ++ "\n"

/-- Body written by `save_markdown(title, content, filename)`:
`# {title}\n\n{content}\n`. -/
def save_markdown_content (title content : String) : String :=
  "# " ++ title ++ "\n\n" ++ content ++ "\n"

/-- Indexed section title `f"{idx}. {title} - {channel_name}"`. -/
def indexedTitle (idx : Nat) (title channel_name : String) : String :=
  toString idx ++ ". " ++ title ++ " - " ++ channel_name

/-- Loop body of `process_playlist` for one video, given the transcript
`content` that the fetch-with-fallback step produced: appends the section
to the combined file, writes the individual file, and, when a target
language is configured, attempts translation — on success the individual
file is overwritten with the translated body under a title suffixed with
the target language, on failure the code only prints a warning.
`translator t c` models `GoogleTranslator(source='auto', target=t).translate(text=c)`. -/
def processVideo (global_target_lang : String)
    (translator : String → String → Except String String)
    (idx : Nat) (entry : VideoEntry) (content : String) (st : RunState) :
    RunState :=
  let indexed_title := indexedTitle idx entry.2.1 entry.2.2
  let combined1 := st.combined ++ "# \"" ++ indexed_title ++ "\"\n\n" ++ content ++ "\n\n"
  let filename := sanitize_filename (indexed_title ++ ".md")
  let individual1 := writeFile st.individual filename
    (save_markdown_content indexed_title content)
  let st1 : RunState := { st with combined := combined1, individual := individual1 }
  if global_target_lang ≠ "" then
    match translator global_target_lang content with
    | Except.ok translated =>
      let translated_doc := save_markdown_content
        (indexed_title ++ " (" ++ global_target_lang ++ ")") translated
      { st1 with individual := writeFile st1.individual filename translated_doc }
    | Except.error _ => st1
  else st1

/-- External collaborators and configuration of one run. -/
structure RunEnv where
  provider : String → ApiResponse
  videoInfo : String → Option (String × String)
  fetchContent : String → String → Except String String
  translator : String → String → Except String String
  global_target_lang : String

/-- Tail of the orchestration: processes the (1-based) indexed entries in
order.  `fetchContent id title` models `fetch_transcript` together with the
fallback path; its uncaught exceptions (`Except.error`) abort the run. -/
def runLoop (env : RunEnv) : List (Nat × VideoEntry) → RunState →
    RunState × Except String Unit
  | [], st => (st, Except.ok ())
  | (idx, e) :: rest, st =>
    match env.fetchContent e.1 e.2.1 with
    | Except.error msg => (st, Except.error msg)
    | Except.ok content =>
      runLoop env rest (processVideo env.global_target_lang env.translator idx e content st)

/-- Playlist branch of `process_playlist`: enumerate the playlist, truncate
the combined file (mode `'w'`), process every entry. -/
def playlistRun (env : RunEnv) (fuel : Nat) (url : String) (st : RunState) :
    RunState × Except String Unit :=
  match fetch_video_ids env.provider fuel url with
  | none => (st, Except.error "pagination loop did not finish within fuel")
  | some (Except.error e) => (st, Except.error e)
  | some (Except.ok entries) =>
    runLoop env (List.enumFrom 1 entries) { st with combined := "" }

/-- Single-video branch of `process_playlist`: resolve title and channel
via the video-detail endpoint; a falsy title raises
`Exception("Could not retrieve title for video ...")`. -/
def singleVideoRun (env : RunEnv) (video_id : String) (st : RunState) :
    RunState × Except String Unit :=
  match env.videoInfo video_id with
  | some (title, channel_name) =>
    if title = "" then
      (st, Except.error ("Could not retrieve title for video " ++ video_id))
    else
      runLoop env (List.enumFrom 1 [(video_id, title, channel_name)])
        { st with combined := "" }
  | none => (st, Except.error ("Could not retrieve title for video " ++ video_id))

/-- `process_playlist(url)`: dispatches on the query parameters — `list`
first, then `v`, else `ValueError("Invalid YouTube URL: missing 'v' or
'list' parameter")` — and runs the matching branch.  The returned pair is
the final writer state and the run's outcome (`Except.error` = uncaught
exception terminating the run). -/
def process_playlist (env : RunEnv) (fuel : Nat) (url : String)
    (st : RunState) : RunState × Except String Unit :=
  let qp := parse_qsl (urlQuery url)
  if (qsLookup qp "list").isSome then playlistRun env fuel url st
  else
    match qsLookup qp "v" with
    | some video_id => singleVideoRun env video_id st
    | none => (st, Except.error "Invalid YouTube URL: missing 'v' or 'list' parameter")

/-- Translator that succeeds on every input, marking its output; used to
instantiate theorems at concrete runs. -/
def okTranslator : String → String → Except String String :=
  fun t c => Except.ok ("T[" ++ t ++ "]" ++ c)

/-- Translator that raises on every input; used to instantiate theorems at
concrete runs. -/
def failTranslator : String → String → Except String String :=
  fun _ _ => Except.error "TranslationError"

/-- Concrete single-video environment whose translation step always fails;
used to instantiate theorems at concrete runs. -/
def failingTranslationEnv : RunEnv :=
  { provider := fun _ =>
      { status_code := 404, text := "", items := [], nextPageToken := none },
    videoInfo := fun _ => some ("T", "C"),
    fetchContent := fun _ _ => Except.ok "body",
    translator := failTranslator,
    global_target_lang := "fr" }

/-- Concrete playlist item used to instantiate the enumeration theorem. -/
def snip1 : Snippet := ⟨"v1", "t1", some "A", none⟩

/-- Concrete playlist item used to instantiate the enumeration theorem. -/
def snip2 : Snippet := ⟨"v2", "t2", none, none⟩

lemma mem_of_mem_pyStrip {c : Char} {l : List Char} (h : c ∈ pyStrip l) :
    c ∈ l := by
  unfold pyStrip at h
  rw [List.mem_reverse] at h
  have h2 := (List.dropWhile_sublist (p := pySpace)
    (l := List.reverse (List.dropWhile pySpace l))).subset h
  rw [List.mem_reverse] at h2
  exact (List.dropWhile_sublist (p := pySpace) (l := l)).subset h2

lemma dropWhile_head_false {p : Char → Bool} {a : Char} {t : List Char}
    (h : List.dropWhile p (a :: t) = a :: t) : p a = false := by
  by_cases hp : p a
  · exfalso
    rw [List.dropWhile_cons, if_pos hp] at h
    have hle := (List.dropWhile_sublist (p := p) (l := t)).length_le
    rw [h] at hle
    simp at hle
  · exact Bool.eq_false_iff.mpr hp

lemma dropWhile_append_singleton {p : Char → Bool} {a : Char}
    (ha : p a = false) :
    ∀ x : List Char, ∃ s, List.dropWhile p (x ++ [a]) = s ++ [a] := by
  intro x
  induction x with
  | nil => exact ⟨[], by simp [List.dropWhile_cons, ha]⟩
  | cons b x ih =>
    by_cases hb : p b
    · obtain ⟨s, hs⟩ := ih
      exact ⟨s, by simp [List.dropWhile_cons, hb, hs]⟩
    · exact ⟨b :: x, by simp [List.dropWhile_cons, hb]⟩

lemma dropWhile_pyStrip (l : List Char) :
    List.dropWhile pySpace (pyStrip l) = pyStrip l := by
  have hmm : List.dropWhile pySpace (List.dropWhile pySpace l) =
      List.dropWhile pySpace l := List.dropWhile_idempotent _ _
  unfold pyStrip
  generalize hg : List.dropWhile pySpace l = m at hmm ⊢
  cases m with
  | nil => simp [List.dropWhile]
  | cons a t =>
    have ha : pySpace a = false := dropWhile_head_false hmm
    obtain ⟨s, hs⟩ := dropWhile_append_singleton ha t.reverse
    rw [List.reverse_cons, hs]
    simp [List.reverse_append, List.dropWhile_cons, ha]

lemma pyStrip_idempotent (l : List Char) : pyStrip (pyStrip l) = pyStrip l := by
  have h1 : List.dropWhile pySpace (pyStrip l) = pyStrip l := dropWhile_pyStrip l
  unfold pyStrip at h1 ⊢
  rw [h1, List.reverse_reverse, List.dropWhile_idempotent]

/-- C7: for every input string, `sanitize_filename` returns a string that
contains none of the characters `<>:"/\|?*`; in particular every title used
as a filename has all such characters removed. -/
theorem sanitize_removes_reserved_chars (title : String) (c : Char)
    (hc : c ∈ badChars) : c ∉ (sanitize_filename title).data := by
  intro hmem
  have h1 : c ∈ title.data.filter (fun c => !(badChars.contains c)) :=
    mem_of_mem_pyStrip hmem
  have h2 : (!badChars.contains c) = true := (List.mem_filter.mp h1).2
  have h3 : badChars.contains c = false := by simpa using h2
  have h4 : c ∉ badChars := by simpa using h3
  exact h4 hc

/-- Witness for C7 at a concrete title containing reserved characters. -/
theorem sanitize_removes_reserved_chars_witness :
    '/' ∈ badChars ∧ '/' ∉ (sanitize_filename "a/b: c?.md").data :=
  ⟨by decide, sanitize_removes_reserved_chars "a/b: c?.md" '/' (by decide)⟩

/-- C10: `sanitize_filename` is idempotent — applying it twice yields the
same string as applying it once. -/
theorem sanitize_filename_idempotent (s : String) :
    sanitize_filename (sanitize_filename s) = sanitize_filename s := by
  show String.mk (pyStrip ((pyStrip (s.data.filter
      (fun c => !(badChars.contains c)))).filter
      (fun c => !(badChars.contains c)))) =
    String.mk (pyStrip (s.data.filter (fun c => !(badChars.contains c))))
  have hfix : (pyStrip (s.data.filter (fun c => !(badChars.contains c)))).filter
      (fun c => !(badChars.contains c)) =
      pyStrip (s.data.filter (fun c => !(badChars.contains c))) := by
    apply List.filter_eq_self.mpr
    intro a ha
    have hmem : a ∈ s.data.filter (fun c => !(badChars.contains c)) :=
      mem_of_mem_pyStrip ha
    exact (List.mem_filter.mp hmem).2
  rw [hfix, pyStrip_idempotent]

lemma readFile_writeFile_same (fs : List (String × String)) (n c : String) :
    readFile (writeFile fs n c) n = some c := by
  induction fs with
  | nil => simp [writeFile, readFile, List.find?]
  | cons p rest ih =>
    obtain ⟨pn, pc⟩ := p
    by_cases h : pn == n
    · simp [writeFile, readFile, List.find?, h]
    · simpa [writeFile, readFile, List.find?, h] using ih

/-- C3: for every input URL, a `list` query parameter routes processing to
the playlist branch; otherwise a `v` parameter routes it to the
single-video branch for the first `v` value; otherwise `process_playlist`
raises the invalid-URL `ValueError` and returns the writer state
untouched — no video is processed. -/
theorem process_playlist_url_dispatch (env : RunEnv) (fuel : Nat)
    (url : String) (st : RunState) :
    ((qsLookup (parse_qsl (urlQuery url)) "list").isSome →
      process_playlist env fuel url st = playlistRun env fuel url st) ∧
    (qsLookup (parse_qsl (urlQuery url)) "list" = none →
      ∀ vid, qsLookup (parse_qsl (urlQuery url)) "v" = some vid →
        process_playlist env fuel url st = singleVideoRun env vid st) ∧
    (qsLookup (parse_qsl (urlQuery url)) "list" = none →
      qsLookup (parse_qsl (urlQuery url)) "v" = none →
      process_playlist env fuel url st =
        (st, Except.error "Invalid YouTube URL: missing 'v' or 'list' parameter")) := by
  refine ⟨?_, ?_, ?_⟩
  · intro h
    unfold process_playlist
    simp [h]
  · intro h1 vid h2
    unfold process_playlist
    simp [h1, h2]
  · intro h1 h2
    unfold process_playlist
    simp [h1, h2]

/-- Witness for C3 at concrete URLs: a playlist URL, a plain video URL and
a URL with neither parameter. -/
theorem process_playlist_url_dispatch_witness :
    process_playlist failingTranslationEnv 1 "https://www.youtube.com/watch?v=abc"
        ⟨"", [], ""⟩ =
      singleVideoRun failingTranslationEnv "abc" ⟨"", [], ""⟩ ∧
    process_playlist failingTranslationEnv 1 "https://www.youtube.com/watch"
        ⟨"", [], ""⟩ =
      (⟨"", [], ""⟩, Except.error "Invalid YouTube URL: missing 'v' or 'list' parameter") ∧
    process_playlist failingTranslationEnv 1 "https://www.youtube.com/playlist?list=PL1"
        ⟨"", [], ""⟩ =
      playlistRun failingTranslationEnv 1 "https://www.youtube.com/playlist?list=PL1"
        ⟨"", [], ""⟩ :=
  ⟨(process_playlist_url_dispatch failingTranslationEnv 1
      "https://www.youtube.com/watch?v=abc" ⟨"", [], ""⟩).2.1 (by decide) "abc" (by decide),
   (process_playlist_url_dispatch failingTranslationEnv 1
      "https://www.youtube.com/watch" ⟨"", [], ""⟩).2.2 (by decide) (by decide),
   (process_playlist_url_dispatch failingTranslationEnv 1
      "https://www.youtube.com/playlist?list=PL1" ⟨"", [], ""⟩).1 (by decide)⟩

/-- C4: when the transcript provider returns a non-empty transcript for the
preference list `['pt', 'en']`, `fetch_transcript` returns the segment
texts joined by newlines in their returned order, and the Fallback
Transcriber is not invoked. -/
theorem fetch_transcript_success_no_fallback
    (api : List String → Except TranscriptApiError (List TranscriptSegment))
    (segs : List TranscriptSegment) (hapi : api ["pt", "en"] = Except.ok segs)
    (hne : segs ≠ []) :
    fetch_transcript api =
      FetchOutcome.fetched (String.intercalate "\n" (segs.map TranscriptSegment.text)) ∧
    fetch_transcript api ≠ FetchOutcome.fallbackInvoked := by
  unfold fetch_transcript
  rw [hapi]
  simp [hne]

/-- Witness for C4 at a concrete two-segment transcript. -/
theorem fetch_transcript_success_no_fallback_witness :
    (fun _ : List String =>
        (Except.ok [TranscriptSegment.mk "hello", TranscriptSegment.mk "world"] :
          Except TranscriptApiError (List TranscriptSegment))) ["pt", "en"] =
      Except.ok [TranscriptSegment.mk "hello", TranscriptSegment.mk "world"] ∧
    ([TranscriptSegment.mk "hello", TranscriptSegment.mk "world"] ≠
      ([] : List TranscriptSegment)) ∧
    (fetch_transcript (fun _ =>
        Except.ok [TranscriptSegment.mk "hello", TranscriptSegment.mk "world"]) =
      FetchOutcome.fetched "hello\nworld" ∧
    fetch_transcript (fun _ =>
        Except.ok [TranscriptSegment.mk "hello", TranscriptSegment.mk "world"]) ≠
      FetchOutcome.fallbackInvoked) :=
  ⟨rfl, by decide,
   fetch_transcript_success_no_fallback
     (fun _ => Except.ok [TranscriptSegment.mk "hello", TranscriptSegment.mk "world"])
     [TranscriptSegment.mk "hello", TranscriptSegment.mk "world"] rfl (by decide)⟩

/-- C5: every transcript-fetch failure — any raised provider error, and a
present-but-empty transcript (the `ValueError` the code itself raises) —
makes `fetch_transcript` fall through to the Fallback Transcriber, and the
function always returns an outcome (no error escapes), so the run
continues. -/
theorem fetch_transcript_failures_fall_back
    (api : List String → Except TranscriptApiError (List TranscriptSegment)) :
    (∀ e, api ["pt", "en"] = Except.error e →
      fetch_transcript api = FetchOutcome.fallbackInvoked) ∧
    (api ["pt", "en"] = Except.ok [] →
      fetch_transcript api = FetchOutcome.fallbackInvoked) ∧
    (fetch_transcript api = FetchOutcome.fallbackInvoked ∨
      ∃ t, fetch_transcript api = FetchOutcome.fetched t) := by
  refine ⟨?_, ?_, ?_⟩
  · intro e he
    unfold fetch_transcript
    rw [he]
    cases e <;> rfl
  · intro h
    unfold fetch_transcript
    rw [h]
    simp
  · unfold fetch_transcript
    cases hx : api ["pt", "en"] with
    | ok segs =>
      by_cases hs : segs = []
      · left
        simp [hs]
      · right
        exact ⟨String.intercalate "\n" (segs.map TranscriptSegment.text), by simp [hs]⟩
    | error e => cases e <;> simp

/-- Witness for C5: a provider raising transcripts-disabled and a provider
returning an empty transcript both fall through to the fallback. -/
theorem fetch_transcript_failures_fall_back_witness :
    ((fun _ : List String =>
        (Except.error TranscriptApiError.transcriptsDisabled :
          Except TranscriptApiError (List TranscriptSegment))) ["pt", "en"] =
      Except.error TranscriptApiError.transcriptsDisabled ∧
    fetch_transcript (fun _ => Except.error TranscriptApiError.transcriptsDisabled) =
      FetchOutcome.fallbackInvoked) ∧
    ((fun _ : List String =>
        (Except.ok [] : Except TranscriptApiError (List TranscriptSegment))) ["pt", "en"] =
      Except.ok [] ∧
    fetch_transcript (fun _ =>
        (Except.ok [] : Except TranscriptApiError (List TranscriptSegment))) =
      FetchOutcome.fallbackInvoked) :=
  ⟨⟨rfl, (fetch_transcript_failures_fall_back
      (fun _ => Except.error TranscriptApiError.transcriptsDisabled)).1
      TranscriptApiError.transcriptsDisabled rfl⟩,
   ⟨rfl, (fetch_transcript_failures_fall_back
      (fun _ => (Except.ok [] : Except TranscriptApiError (List TranscriptSegment)))).2.1
      rfl⟩⟩

/-- C6 counterexample: the operator answers yes-to-all for one video (the
sticky flag becomes set), yet on the next video the prompt is not skipped —
the code asks again and consumes the operator's `"n"` — even though the
decision is still yes.  This refutes the claim that subsequent videos skip
the yes/no/all prompt. -/
theorem placeholder_prompt_not_skipped :
    (generate_transcript_placeholder_step false ["a", "n"]).always_use_whisper = true ∧
    (generate_transcript_placeholder_step true ["n"]).pendingAnswers ≠ ["n"] ∧
    (generate_transcript_placeholder_step true ["n"]).pendingAnswers = [] ∧
    (generate_transcript_placeholder_step true ["n"]).runWhisper = true := by
  decide

/-- C6 (amended): answering yes-to-all sets the process-wide sticky flag,
and while the flag is set every subsequent video's decision defaults to
yes — whisper runs and the flag stays set regardless of the operator's
answer — but the prompt is still shown: one pending answer is consumed on
every call (and end-of-input defaults to yes as well). -/
theorem placeholder_sticky_flag_forces_yes :
    (∀ rest : List String, generate_transcript_placeholder_step false ("a" :: rest) =
      { runWhisper := true, always_use_whisper := true, pendingAnswers := rest }) ∧
    (∀ (ans : String) (rest : List String),
      generate_transcript_placeholder_step true (ans :: rest) =
        { runWhisper := true, always_use_whisper := true, pendingAnswers := rest }) ∧
    (generate_transcript_placeholder_step true [] =
      { runWhisper := true, always_use_whisper := true, pendingAnswers := [] }) := by
  refine ⟨?_, ?_, by decide⟩
  · intro rest
    have h : normalizeAnswer "a" = "a" := rfl
    unfold generate_transcript_placeholder_step
    simp [h]
  · intro ans rest
    unfold generate_transcript_placeholder_step
    by_cases h : normalizeAnswer ans = "a"
    · simp [h]
    · simp [h]

/-- C9 counterexample: the downloader produced `video_files/T.mp4` and the
whisper call raises; the error propagates and the media file is still
present afterwards, refuting deletion "regardless of the transcription
outcome". -/
theorem whisper_crash_leaves_file :
    (generate_transcript_with_whisper "T" ["video_files/T.mp4"]
        (fun _ => Except.error "whisper crashed") ["video_files/T.mp4"]).1 =
      Except.error "whisper crashed" ∧
    "video_files/T.mp4" ∈ (generate_transcript_with_whisper "T" ["video_files/T.mp4"]
        (fun _ => Except.error "whisper crashed") ["video_files/T.mp4"]).2 :=
  ⟨rfl, by decide⟩

/-- C9 (amended): when the downloader produced a matching media file, the
file is deleted whenever the whisper call returns a result — whatever the
transcription text — but when the whisper call raises, the exception
propagates and the file remains in the working directory. -/
theorem whisper_cleanup_on_return (title f : String) (rest files : List String)
    (transcribe : String → Except String String) (hf : files.Nodup) :
    (∀ text, transcribe f = Except.ok text →
      generate_transcript_with_whisper title (f :: rest) transcribe files =
        (Except.ok text, files.erase f) ∧ f ∉ files.erase f) ∧
    (∀ e, transcribe f = Except.error e →
      generate_transcript_with_whisper title (f :: rest) transcribe files =
        (Except.error e, files)) := by
  constructor
  · intro text ht
    refine ⟨?_, hf.not_mem_erase⟩
    simp [generate_transcript_with_whisper, ht]
  · intro e he
    simp [generate_transcript_with_whisper, he]

/-- Witness for C9 (amended) at a concrete successful transcription. -/
theorem whisper_cleanup_on_return_witness :
    (["video_files/T.mp4"] : List String).Nodup ∧
    (fun _ : String => (Except.ok "text" : Except String String)) "video_files/T.mp4" =
      Except.ok "text" ∧
    (generate_transcript_with_whisper "T" ["video_files/T.mp4"]
        (fun _ => Except.ok "text") ["video_files/T.mp4"] =
      (Except.ok "text", (["video_files/T.mp4"] : List String).erase "video_files/T.mp4") ∧
    "video_files/T.mp4" ∉ (["video_files/T.mp4"] : List String).erase "video_files/T.mp4") :=
  ⟨by decide, rfl,
   (whisper_cleanup_on_return "T" "video_files/T.mp4" [] ["video_files/T.mp4"]
      (fun _ => Except.ok "text") (by decide)).1 "text" rfl⟩

/-- C2: for every processed video the combined file gains a section holding
the original pre-translation body, whatever the translation outcome; when
translation succeeds the individual file ends up overwritten with the
translated body under a title suffixed with the target language, and when
translation fails (or no target is configured) the individual file keeps
the already-written original content — the loop body returns normally
either way, so the run continues. -/
theorem combined_keeps_original_individual_translated
    (global_target_lang : String)
    (translator : String → String → Except String String)
    (idx : Nat) (entry : VideoEntry) (content : String) (st : RunState) :
    ((processVideo global_target_lang translator idx entry content st).combined =
      st.combined ++ "# \"" ++ indexedTitle idx entry.2.1 entry.2.2 ++ "\"\n\n" ++
        content ++ "\n\n") ∧
    (∀ translated, global_target_lang ≠ "" →
      translator global_target_lang content = Except.ok translated →
      readFile (processVideo global_target_lang translator idx entry content st).individual
          (sanitize_filename (indexedTitle idx entry.2.1 entry.2.2 ++ ".md")) =
        some (save_markdown_content
          (indexedTitle idx entry.2.1 entry.2.2 ++ " (" ++ global_target_lang ++ ")")
          translated)) ∧
    (∀ e, translator global_target_lang content = Except.error e →
      readFile (processVideo global_target_lang translator idx entry content st).individual
          (sanitize_filename (indexedTitle idx entry.2.1 entry.2.2 ++ ".md")) =
        some (save_markdown_content (indexedTitle idx entry.2.1 entry.2.2) content)) := by
  refine ⟨?_, ?_, ?_⟩
  · unfold processVideo
    by_cases hg : global_target_lang = ""
    · simp [hg]
    · cases htr : translator global_target_lang content with
      | ok tr => simp [hg, htr]
      | error e => simp [hg, htr]
  · intro translated hg htr
    unfold processVideo
    simp [hg, htr, readFile_writeFile_same]
  · intro e htr
    unfold processVideo
    by_cases hg : global_target_lang = ""
    · simp [hg, readFile_writeFile_same]
    · simp [hg, htr, readFile_writeFile_same]

/-- Witness for C2 at a concrete video, for both a succeeding and a failing
translation step. -/
theorem combined_keeps_original_individual_translated_witness :
    (("fr" : String) ≠ "" ∧ okTranslator "fr" "body" = Except.ok "T[fr]body" ∧
      readFile (processVideo "fr" okTranslator 1 ("id", "T", "C") "body"
          ⟨"", [], ""⟩).individual
          (sanitize_filename (indexedTitle 1 "T" "C" ++ ".md")) =
        some (save_markdown_content (indexedTitle 1 "T" "C" ++ " (" ++ "fr" ++ ")")
          "T[fr]body")) ∧
    (failTranslator "fr" "body" = Except.error "TranslationError" ∧
      readFile (processVideo "fr" failTranslator 1 ("id", "T", "C") "body"
          ⟨"", [], ""⟩).individual
          (sanitize_filename (indexedTitle 1 "T" "C" ++ ".md")) =
        some (save_markdown_content (indexedTitle 1 "T" "C") "body")) :=
  ⟨⟨by decide, rfl,
    (combined_keeps_original_individual_translated "fr" okTranslator 1 ("id", "T", "C")
      "body" ⟨"", [], ""⟩).2.1 "T[fr]body" (by decide) rfl⟩,
   ⟨rfl,
    (combined_keeps_original_individual_translated "fr" failTranslator 1 ("id", "T", "C")
      "body" ⟨"", [], ""⟩).2.2 "TranslationError" rfl⟩⟩

/-- C8: the pipeline never appends to the skip log.  `log_skipped` would
append a `"{url} - {reason}"` line, but no code path calls it: the
per-video loop body leaves the skip log unchanged for every input, and a
concrete single-video run whose translation step fails still ends with an
empty log and a normally completed run. -/
theorem skip_log_never_written :
    (∀ g tr idx e c st, (processVideo g tr idx e c st).skipLog = st.skipLog) ∧
    (∀ log url reason, log_skipped log url reason =
      log ++ url ++ " - " ++ reason ++ "\n") ∧
    (∀ c, failingTranslationEnv.translator failingTranslationEnv.global_target_lang c =
      Except.error "TranslationError") ∧
    (process_playlist failingTranslationEnv 1 "x?v=abc" ⟨"", [], ""⟩).1.skipLog = "" ∧
    (process_playlist failingTranslationEnv 1 "x?v=abc" ⟨"", [], ""⟩).2 = Except.ok () := by
  refine ⟨?_, fun log url reason => rfl, fun c => rfl, rfl, rfl⟩
  intro g tr idx e c st
  unfold processVideo
  by_cases hg : g = ""
  · simp [hg]
  · cases htr : tr g c with
    | ok t => simp [hg, htr]
    | error e2 => simp [hg, htr]

lemma tok_length (i : Nat) : (tok i).length = i := by
  show (List.replicate i 'a').length = i
  exact List.length_replicate ..

set_option maxRecDepth 4000 in
lemma fetchLoop_pagedProvider (pages : List (List Snippet)) :
    ∀ (n i : Nat), i < pages.length → n = pages.length - i →
    fetchLoop (pagedProvider pages) n (tok i) =
      some (Except.ok ((pages.drop i).flatten.map entryOfSnippet)) := by
  intro n
  induction n with
  | zero =>
    intro i hi hn
    omega
  | succ k ih =>
    intro i hi hn
    have hresp : pagedProvider pages (tok i) =
        { status_code := 200, text := "", items := pages.get ⟨i, hi⟩,
          nextPageToken :=
            if i + 1 < pages.length then some (tok (i + 1)) else none } := by
      unfold pagedProvider
      rw [tok_length]
      rw [dif_pos hi]
    by_cases h2 : i + 1 < pages.length
    · have hk : k = pages.length - (i + 1) := by omega
      simp only [fetchLoop, hresp, h2, if_true]
      rw [ih (i + 1) h2 hk]
      rw [List.drop_eq_getElem_cons hi, List.flatten_cons, List.map_append]
      rw [if_neg (fun h => h rfl)]
      rfl
    · simp only [fetchLoop, hresp, h2, if_false]
      have hnil : pages.drop (i + 1) = [] := List.drop_eq_nil_of_le (by omega)
      rw [List.drop_eq_getElem_cons hi, hnil, List.flatten_cons, List.flatten_nil,
        List.append_nil]
      rw [if_neg (fun h => h rfl)]
      rfl

/-- C1: for every playlist whose provider listing is split into pages, the
enumerator returns exactly the provider's items — as many entries as the
listing has items, in provider-returned order, without duplicates whenever
the listing's entries are distinct — and, for every provider, an iteration
of the pagination loop terminates exactly when the response carries no
continuation token. -/
theorem fetch_video_ids_enumerates_all_pages (pages : List (List Snippet))
    (hne : pages ≠ []) (url : String)
    (hurl : (qsLookup (parse_qsl (urlQuery url)) "list").isSome)
    (hnd : (pages.flatten.map entryOfSnippet).Nodup) :
    (fetch_video_ids (pagedProvider pages) pages.length url =
      some (Except.ok (pages.flatten.map entryOfSnippet)) ∧
     (pages.flatten.map entryOfSnippet).length = pages.flatten.length ∧
     (pages.flatten.map entryOfSnippet).Nodup) ∧
    (∀ (provider : String → ApiResponse) (fuel : Nat) (t : String),
      (provider t).status_code = 200 →
      ((provider t).nextPageToken = none →
        fetchLoop provider (fuel + 1) t =
          some (Except.ok ((provider t).items.map entryOfSnippet))) ∧
      (∀ t2, (provider t).nextPageToken = some t2 →
        fetchLoop provider (fuel + 1) t =
          match fetchLoop provider fuel t2 with
          | none => none
          | some (Except.error e) => some (Except.error e)
          | some (Except.ok rest) =>
            some (Except.ok ((provider t).items.map entryOfSnippet ++ rest)))) := by
  refine ⟨⟨?_, List.length_map .., hnd⟩, ?_⟩
  · obtain ⟨pid, hpid⟩ := Option.isSome_iff_exists.mp hurl
    unfold fetch_video_ids
    rw [hpid]
    have h0 : tok 0 = "" := rfl
    have hmain := fetchLoop_pagedProvider pages pages.length 0
      (List.length_pos.mpr hne) (by omega)
    rw [h0] at hmain
    rw [hmain]
    simp
  · intro provider fuel t h200
    constructor
    · intro hnone
      simp only [fetchLoop]
      simp [h200, hnone]
    · intro t2 hsome
      simp only [fetchLoop]
      simp [h200, hsome]

/-- Witness for C1: a two-page listing with one distinct item per page is
enumerated in full and in order. -/
theorem fetch_video_ids_enumerates_all_pages_witness :
    ([[snip1], [snip2]] ≠ ([] : List (List Snippet))) ∧
    (qsLookup (parse_qsl (urlQuery "u?list=PL1")) "list").isSome ∧
    (([[snip1], [snip2]] : List (List Snippet)).flatten.map entryOfSnippet).Nodup ∧
    fetch_video_ids (pagedProvider [[snip1], [snip2]]) 2 "u?list=PL1" =
      some (Except.ok [("v1", "t1", "A"), ("v2", "t2", "Unknown")]) :=
  ⟨by decide, by decide, by decide,
   (fetch_video_ids_enumerates_all_pages [[snip1], [snip2]] (by decide) "u?list=PL1"
      (by decide) (by decide)).1.1⟩

end ExtractTranscripts
